import Mathlib

/-!
Verification of the villen-web authorization core against its specification.

The embedding follows `backend/api/auth_backends.py`, `backend/api/auth_views.py`,
`backend/api/auth_serializers.py` and `backend/api/models.py`. Strings that the
Python code hashes or compares byte-wise are modelled as lists of byte values
(`List Nat`); timestamps are absolute seconds as `Nat`; the Django cache and the
database tables are explicit association lists threaded through each operation.
-/

/-- Byte strings: the UTF-8 byte sequences the Python code hashes and compares. -/
abbrev Bytes := List Nat

namespace Sha256

/-!
Executable SHA-256 (FIPS 180-4), the function `hashlib.sha256` computes, which
`APIKeyAuthentication._validate_hmac` relies on through `hmac.new(..., hashlib.sha256)`.
All 32-bit words are naturals reduced mod 2^32.
-/

/-- Truncate to a 32-bit word. -/
def w32 (x : Nat) : Nat := x % 4294967296

/-- Rotate a 32-bit word right by `n` bits. -/
def rotr (n x : Nat) : Nat := (x >>> n) ||| w32 (x <<< (32 - n))

/-- Round constants of SHA-256, in decimal. -/
def K : List Nat :=
  [1116352408, 1899447441, 3049323471, 3921009573, 961987163, 1508970993,
   2453635748, 2870763221, 3624381080, 310598401, 607225278, 1426881987,
   1925078388, 2162078206, 2614888103, 3248222580, 3835390401, 4022224774,
   264347078, 604807628, 770255983, 1249150122, 1555081692, 1996064986,
   2554220882, 2821834349, 2952996808, 3210313671, 3336571891, 3584528711,
   113926993, 338241895, 666307205, 773529912, 1294757372, 1396182291,
   1695183700, 1986661051, 2177026350, 2456956037, 2730485921, 2820302411,
   3259730800, 3345764771, 3516065817, 3600352804, 4094571909, 275423344,
   430227734, 506948616, 659060556, 883997877, 958139571, 1322822218,
   1537002063, 1747873779, 1955562222, 2024104815, 2227730452, 2361852424,
   2428436474, 2756734187, 3204031479, 3329325298]

/-- Working state: the eight 32-bit hash registers. -/
structure Digest where
  r0 : Nat
  r1 : Nat
  r2 : Nat
  r3 : Nat
  r4 : Nat
  r5 : Nat
  r6 : Nat
  r7 : Nat
deriving Repr, DecidableEq

/-- Initial hash value of SHA-256, in decimal. -/
def initDigest : Digest :=
  ⟨1779033703, 3144134277, 1013904242, 2773480762,
   1359893119, 2600822924, 528734635, 1541459225⟩

/-- Combine four big-endian bytes into 32-bit words. -/
def bytesToWords : Bytes → List Nat
  | b0 :: b1 :: b2 :: b3 :: rest => (((b0 * 256 + b1) * 256 + b2) * 256 + b3) :: bytesToWords rest
  | _ => []

/-- Lower sigma-0 of the message schedule. -/
def sigma0 (x : Nat) : Nat := (rotr 7 x) ^^^ (rotr 18 x) ^^^ (x >>> 3)

/-- Lower sigma-1 of the message schedule. -/
def sigma1 (x : Nat) : Nat := (rotr 17 x) ^^^ (rotr 19 x) ^^^ (x >>> 10)

/-- Extend the 16 block words to the 64-entry message schedule. -/
def extend : Nat → Array Nat → Array Nat
  | 0, w => w
  | n + 1, w =>
    let i := w.size
    let x := w32 (w.getD (i - 16) 0 + sigma0 (w.getD (i - 15) 0) +
                  w.getD (i - 7) 0 + sigma1 (w.getD (i - 2) 0))
    extend n (w.push x)

/-- One compression round with round constant `k` and schedule word `w`. -/
def roundStep (k w : Nat) (s : Digest) : Digest :=
  let bigS1 := (rotr 6 s.r4) ^^^ (rotr 11 s.r4) ^^^ (rotr 25 s.r4)
  let ch := (s.r4 &&& s.r5) ^^^ ((s.r4 ^^^ 0xffffffff) &&& s.r6)
  let temp1 := w32 (s.r7 + bigS1 + ch + k + w)
  let bigS0 := (rotr 2 s.r0) ^^^ (rotr 13 s.r0) ^^^ (rotr 22 s.r0)
  let maj := (s.r0 &&& s.r1) ^^^ (s.r0 &&& s.r2) ^^^ (s.r1 &&& s.r2)
  let temp2 := w32 (bigS0 + maj)
  ⟨w32 (temp1 + temp2), s.r0, s.r1, s.r2, w32 (s.r3 + temp1), s.r4, s.r5, s.r6⟩

/-- Run the 64 rounds over the zipped constants and schedule. -/
def rounds : List (Nat × Nat) → Digest → Digest
  | [], s => s
  | (k, w) :: rest, s => rounds rest (roundStep k w s)

/-- Compress one 64-byte block into the running digest. -/
def compressBlock (block : Bytes) (s : Digest) : Digest :=
  let w := extend 48 (bytesToWords block).toArray
  let t := rounds (K.zip w.toList) s
  ⟨w32 (s.r0 + t.r0), w32 (s.r1 + t.r1), w32 (s.r2 + t.r2), w32 (s.r3 + t.r3),
   w32 (s.r4 + t.r4), w32 (s.r5 + t.r5), w32 (s.r6 + t.r6), w32 (s.r7 + t.r7)⟩

/-- The 8-byte big-endian encoding of the message bit length. -/
def lengthBytes (n : Nat) : Bytes :=
  [n >>> 56 % 256, n >>> 48 % 256, n >>> 40 % 256, n >>> 32 % 256,
   n >>> 24 % 256, n >>> 16 % 256, n >>> 8 % 256, n % 256]

/-- Pad a message to a multiple of 64 bytes: `0x80`, zeros, then the bit length. -/
def padMessage (msg : Bytes) : Bytes :=
  let L := msg.length
  msg ++ 0x80 :: List.replicate ((119 - L % 64) % 64) 0 ++ lengthBytes (8 * L)

/-- Fold the compression function over `n` consecutive 64-byte blocks. -/
def processBlocks : Nat → Bytes → Digest → Digest
  | 0, _, s => s
  | n + 1, msg, s => processBlocks n (msg.drop 64) (compressBlock (msg.take 64) s)

/-- Serialize the final digest as 32 big-endian bytes. -/
def digestBytes (s : Digest) : Bytes :=
  [s.r0, s.r1, s.r2, s.r3, s.r4, s.r5, s.r6, s.r7].flatMap fun w =>
    [w >>> 24 % 256, w >>> 16 % 256, w >>> 8 % 256, w % 256]

/-- SHA-256 of a byte string. -/
def sha256 (msg : Bytes) : Bytes :=
  let padded := padMessage msg
  digestBytes (processBlocks (padded.length / 64) padded initDigest)

/-- HMAC-SHA256 (RFC 2104), the function `hmac.new(key, msg, hashlib.sha256)` computes. -/
def hmacSha256 (key msg : Bytes) : Bytes :=
  let k0 := if 64 < key.length then sha256 key ++ List.replicate 32 0
            else key ++ List.replicate (64 - key.length) 0
  let ipadded := k0.map (fun b => b ^^^ 0x36)
  let opadded := k0.map (fun b => b ^^^ 0x5c)
  sha256 (opadded ++ sha256 (ipadded ++ msg))

/-- ASCII code of a lowercase hex digit. -/
def hexChar (n : Nat) : Nat := if n < 10 then 48 + n else 87 + n

/-- Lowercase hex rendering of a byte string, as `hexdigest()` produces. -/
def toHex : Bytes → Bytes
  | [] => []
  | b :: rest => hexChar (b / 16) :: hexChar (b % 16) :: toHex rest

/-- The hex digest `hmac.new(key, msg, hashlib.sha256).hexdigest()` returns. -/
def hmacSha256Hex (key msg : Bytes) : Bytes := toHex (hmacSha256 key msg)

/-- Sanity check against the FIPS 180-4 test vector for the message "abc". -/
theorem sha256_abc :
    sha256 [97, 98, 99] =
    [0xba, 0x78, 0x16, 0xbf, 0x8f, 0x01, 0xcf, 0xea, 0x41, 0x41, 0x40, 0xde,
     0x5d, 0xae, 0x22, 0x23, 0xb0, 0x03, 0x61, 0xa3, 0x96, 0x17, 0x7a, 0x9c,
     0xb4, 0x10, 0xff, 0x61, 0xf2, 0x00, 0x15, 0xad] := by
  decide

end Sha256

namespace ApiAuth

/-!
Embedding of `APIKeyAuthentication` from `backend/api/auth_backends.py` together
with the `APIKey` and `APIKeyUsage` rows from `backend/api/models.py` that it
reads and writes. The Django cache is an explicit association list; request
components are the byte strings the Python code feeds to the HMAC.
-/

/-- The `APIKey` model row: the `key` column is both the lookup id carried in the
request header and the HMAC secret (`_validate_hmac` keys the HMAC with `api_key.key`). -/
structure APIKey where
  id : Nat
  key : Bytes
  userId : Nat
  isActive : Bool
  rateLimit : Nat
  expiresAt : Option Nat
  lastUsed : Option Nat
deriving Repr, DecidableEq

/-- The request components `authenticate` and `_validate_hmac` read: the method,
the absolute URL of the path, the raw body, the `X-Timestamp` header value (empty
when absent, as `request.META.get(..., '')` yields), and the `X-API-Key` header. -/
structure ApiRequest where
  method : Bytes
  url : Bytes
  body : Bytes
  timestampHeader : Bytes
  apiKeyHeader : Option Bytes
deriving Repr, DecidableEq

/-- `APIKey.is_expired`: true when an expiry is set and `timezone.now()` is past it. -/
def is_expired (k : APIKey) (now : Nat) : Bool :=
  match k.expiresAt with
  | some e => decide (e < now)
  | none => false

/-- The message `_validate_hmac` signs: `f"{method}{url}{body}{timestamp}"`. -/
def canonicalMessage (r : ApiRequest) : Bytes :=
  r.method ++ r.url ++ r.body ++ r.timestampHeader

/-- `_validate_hmac`: recompute the hex HMAC-SHA256 digest over the canonical
message keyed with `api_key.key` and compare with the provided signature
(`hmac.compare_digest` is equality with constant-time evaluation). -/
def validate_hmac (r : ApiRequest) (k : APIKey) (provided : Bytes) : Bool :=
  Sha256.hmacSha256Hex k.key (canonicalMessage r) == provided

/-- Split a byte string at the first colon, as `header.split(':', 1)` does when a
colon occurs; `none` when there is no colon. -/
def splitOnColon : Bytes → Option (Bytes × Bytes)
  | [] => none
  | c :: rest =>
    if c = 58 then some ([], rest)
    else match splitOnColon rest with
      | some (a, b) => some (c :: a, b)
      | none => none

/-- Parse the `X-API-Key` header into key id and optional signature. An empty
part after the colon is falsy in Python, so `if provided_hmac:` skips it. -/
def parseHeader (h : Bytes) : Bytes × Option Bytes :=
  match splitOnColon h with
  | some (kid, sig) => (kid, if sig = [] then none else some sig)
  | none => (h, none)

/-- One entry of the Django cache used by `_check_rate_limit`. The source cache
key is the string `f"api_key_ratelimit:{api_key.id}:{hour}"`, an injective
encoding of the pair (key id, hour) which we carry directly. -/
structure CacheEntry where
  keyId : Nat
  hour : Nat
  value : Nat
  expiresAt : Nat
deriving Repr, DecidableEq

/-- The rate-limit cache: most recent entry for a key shadows older ones. -/
abbrev RateCache := List CacheEntry

/-- `cache.get(cache_key, 0)`: the stored value when present and not expired, else 0. -/
def cacheGet (c : RateCache) (kid hour now : Nat) : Nat :=
  match c.find? (fun e => e.keyId == kid && e.hour == hour) with
  | some e => if now < e.expiresAt then e.value else 0
  | none => 0

/-- `cache.set(cache_key, v, ttl)`: replace the entry, expiring `ttl` seconds from now. -/
def cacheSet (c : RateCache) (kid hour value now ttl : Nat) : RateCache :=
  ⟨kid, hour, value, now + ttl⟩ :: c.filter (fun e => !(e.keyId == kid && e.hour == hour))

/-- `timezone.now().hour`: the hour of day, 0..23. -/
def hourOfDay (now : Nat) : Nat := now / 3600 % 24

/-- `_check_rate_limit`: read the hourly counter; at or above `rate_limit` fail,
otherwise store the incremented counter with a 3600-second expiry. -/
def check_rate_limit (k : APIKey) (cache : RateCache) (now : Nat) : Bool × RateCache :=
  let hour := hourOfDay now
  let currentUsage := cacheGet cache k.id hour now
  if k.rateLimit ≤ currentUsage then (false, cache)
  else (true, cacheSet cache k.id hour (currentUsage + 1) now 3600)

/-- An `APIKeyUsage` row appended by `_log_usage`. -/
structure UsageRecord where
  apiKeyId : Nat
  method : Bytes
deriving Repr, DecidableEq

/-- The store and cache state `authenticate` reads and writes. -/
structure AuthState where
  keys : List APIKey
  cache : RateCache
  usage : List UsageRecord
deriving Repr, DecidableEq

/-- Result of `APIKeyAuthentication.authenticate`: `skipped` models returning
`None` (no header), `success` the `(api_key.user, api_key)` pair, and `failed m`
raising `rest_framework.exceptions.AuthenticationFailed(m)`, whose HTTP status
code is 401. -/
inductive AuthOutcome
  | skipped
  | success (userId : Nat) (apiKeyId : Nat)
  | failed (message : String)
deriving Repr, DecidableEq

/-- HTTP status of `rest_framework.exceptions.AuthenticationFailed`. -/
def authenticationFailedStatus : Nat := 401

/-- `APIKeyAuthentication.authenticate`. The two Booleans model the only fallible
store effects: a raise inside `api_key.update_last_used()` and one inside
`APIKeyUsage.objects.create`. Every `AuthenticationFailed` raised inside the
`try` block is caught by the blanket `except Exception` clause, which re-raises
`AuthenticationFailed('Authentication failed')`; only the `APIKey.DoesNotExist`
branch keeps its specific message. `_log_usage` has its own handler, so a
failure there is swallowed; a failure in `update_last_used` propagates to the
blanket handler. -/
def authenticate (st : AuthState) (r : ApiRequest) (now : Nat)
    (updateLastUsedFails logUsageFails : Bool) : AuthOutcome × AuthState :=
  match r.apiKeyHeader with
  | none => (.skipped, st)
  | some header =>
    let p := parseHeader header
    match st.keys.find? (fun k => k.key == p.1 && k.isActive) with
    | none => (.failed "Invalid API key", st)
    | some apiKey =>
      if is_expired apiKey now then
        (.failed "Authentication failed", st)
      else if !(match p.2 with
                | some sig => validate_hmac r apiKey sig
                | none => true) then
        (.failed "Authentication failed", st)
      else
        let rl := check_rate_limit apiKey st.cache now
        if !rl.1 then (.failed "Authentication failed", st)
        else
          let st1 : AuthState := { st with cache := rl.2 }
          if updateLastUsedFails then
            (.failed "Authentication failed", st1)
          else
            let st2 : AuthState := { st1 with
              keys := st1.keys.map fun k =>
                if k.id == apiKey.id then { k with lastUsed := some now } else k }
            let st3 : AuthState :=
              if logUsageFails then st2
              else { st2 with usage := st2.usage ++ [⟨apiKey.id, r.method⟩] }
            (.success apiKey.userId apiKey.id, st3)

/-- A one-byte in-place change: position `i` rewritten to a different byte. -/
def oneByteChange (s t : Bytes) : Prop :=
  ∃ i b, i < s.length ∧ b ≠ s.getD i 0 ∧ t = s.set i b

/-- A single-byte mutation of exactly one of the four signed request components. -/
def singleByteMutation (r r' : ApiRequest) : Prop :=
  (oneByteChange r.method r'.method ∧ r'.url = r.url ∧ r'.body = r.body ∧
     r'.timestampHeader = r.timestampHeader) ∨
  (r'.method = r.method ∧ oneByteChange r.url r'.url ∧ r'.body = r.body ∧
     r'.timestampHeader = r.timestampHeader) ∨
  (r'.method = r.method ∧ r'.url = r.url ∧ oneByteChange r.body r'.body ∧
     r'.timestampHeader = r.timestampHeader) ∨
  (r'.method = r.method ∧ r'.url = r.url ∧ r'.body = r.body ∧
     oneByteChange r.timestampHeader r'.timestampHeader)

end ApiAuth

/-- Replace the first element satisfying `p` by its image under `f`, the effect
of mutating and saving the single row returned by a Django `.first()` query. -/
def updateFirst {α : Type} (p : α → Bool) (f : α → α) : List α → List α
  | [] => []
  | x :: xs => if p x then f x :: xs else x :: updateFirst p f xs

namespace AuthViews

/-!
Embedding of the `login` view from `backend/api/auth_views.py` and the
`UserProfile` lockout fields and methods from `backend/api/models.py`.
-/

/-- The lockout-relevant `UserProfile` columns. -/
structure UserProfile where
  failedLoginAttempts : Nat
  lockoutUntil : Option Nat
deriving Repr, DecidableEq

/-- `UserProfile.MAX_LOGIN_ATTEMPTS`. -/
def MAX_LOGIN_ATTEMPTS : Nat := 5

/-- `UserProfile.LOCKOUT_DURATION_MINUTES`. -/
def LOCKOUT_DURATION_MINUTES : Nat := 15

/-- `UserProfile.is_locked_out`: locked while `lockout_until` is strictly in the future. -/
def is_locked_out (p : UserProfile) (now : Nat) : Bool :=
  match p.lockoutUntil with
  | some t => decide (now < t)
  | none => false

/-- `UserProfile.record_failed_login`: increment the counter and set the lockout
once it reaches `MAX_LOGIN_ATTEMPTS`. -/
def record_failed_login (p : UserProfile) (now : Nat) : UserProfile :=
  let fa := p.failedLoginAttempts + 1
  { failedLoginAttempts := fa,
    lockoutUntil := if MAX_LOGIN_ATTEMPTS ≤ fa then
        some (now + LOCKOUT_DURATION_MINUTES * 60)
      else p.lockoutUntil }

/-- `UserProfile.reset_login_attempts`: zero the counter and clear the lockout. -/
def reset_login_attempts (_p : UserProfile) : UserProfile :=
  { failedLoginAttempts := 0, lockoutUntil := none }

/-- The distinct responses of the `login` view. `lockedRemaining n` is the 429
with the message reporting `n` remaining minutes; `invalidRemaining n` is the 401
reporting `n` attempts remaining; `lockedForDuration m` is the 429 naming the
configured lockout duration; `invalidCredentials` is the generic 401. -/
inductive LoginResponse
  | invalidCredentials
  | lockedRemaining (minutes : Nat)
  | invalidRemaining (remaining : Int)
  | lockedForDuration (minutes : Nat)
  | loginOk
deriving Repr, DecidableEq

/-- HTTP status of each `login` response. -/
def loginStatus : LoginResponse → Nat
  | .invalidCredentials => 401
  | .lockedRemaining _ => 429
  | .invalidRemaining _ => 401
  | .lockedForDuration _ => 429
  | .loginOk => 200

/-- The `(profile.lockout_until - timezone.now()).seconds // 60` computation: the
seconds field of a positive timedelta is the difference mod one day. -/
def remainingLockoutMinutes (t now : Nat) : Nat := (t - now) % 86400 / 60

/-- The `login` view. `userExists` is the `User.objects.get(email=...)` lookup,
`profile` the `getattr(user_obj, 'profile', None)` result, and `passwordOk`
whether `django.contrib.auth.authenticate` returns a user. Returns the response
and the stored profile after the attempt. -/
def login (userExists : Bool) (profile : Option UserProfile) (passwordOk : Bool)
    (now : Nat) : LoginResponse × Option UserProfile :=
  if !userExists then (.invalidCredentials, profile)
  else
    match profile with
    | some p =>
      if is_locked_out p now then
        (.lockedRemaining (remainingLockoutMinutes (p.lockoutUntil.getD 0) now), some p)
      else if !passwordOk then
        let p' := record_failed_login p now
        let remaining : Int := (MAX_LOGIN_ATTEMPTS : Int) - p'.failedLoginAttempts
        if 0 < remaining then (.invalidRemaining remaining, some p')
        else (.lockedForDuration LOCKOUT_DURATION_MINUTES, some p')
      else (.loginOk, some (reset_login_attempts p))
    | none =>
      if !passwordOk then (.invalidCredentials, none)
      else (.loginOk, none)

end AuthViews

namespace OtpFlow

/-!
Embedding of the OTP endpoints `send_otp`, `verify_otp`, `forgot_password` and
`register` from `backend/api/auth_views.py`, with the `EmailOTP` model from
`backend/api/models.py` and the serializers from `backend/api/auth_serializers.py`.
-/

/-- An `EmailOTP` row. The table ordering is `-created_at`, so the newest row
comes first; creation therefore inserts at the head of the list. -/
structure EmailOTP where
  email : String
  otp : String
  purpose : String
  expiryTime : Nat
  isVerified : Bool
  attempts : Nat
deriving Repr, DecidableEq

/-- `EmailOTP.MAX_ATTEMPTS`. -/
def MAX_ATTEMPTS : Nat := 5

/-- `EmailOTP.is_expired`: `timezone.now() > expiry_time`. -/
def otpExpired (r : EmailOTP) (now : Nat) : Bool := decide (r.expiryTime < now)

/-- `EmailOTP.is_locked`: `attempts >= MAX_ATTEMPTS`. -/
def otpLocked (r : EmailOTP) : Bool := decide (MAX_ATTEMPTS ≤ r.attempts)

/-- The `EmailOTP` table. -/
abbrev OtpDb := List EmailOTP

/-- The filter `EmailOTP.objects.filter(email=..., purpose=...)`. -/
def matchPred (email purpose : String) (r : EmailOTP) : Bool :=
  r.email == email && r.purpose == purpose

/-- Outcomes of the OTP verification views. `invalidCode n` carries the
`MAX_ATTEMPTS - attempts` value the error message reports after the increment. -/
inductive VerifyOtpResult
  | notFound
  | locked
  | expired
  | invalidCode (remaining : Int)
  | verifiedOk
deriving Repr, DecidableEq

/-- HTTP status of each verification outcome, as the views return them. -/
def verifyStatus : VerifyOtpResult → Nat
  | .notFound => 400
  | .locked => 429
  | .expired => 400
  | .invalidCode _ => 400
  | .verifiedOk => 200

/-- Shared body of `verify_otp` and `verify_reset_otp`: find the newest row for
`(email, purpose)`; fail `notFound` when absent; on `attempts >= 5` delete the
row and fail `locked` (429); past expiry delete and fail `expired`; on mismatch
increment `attempts` and report the remaining count; on match set `is_verified`
and keep the row. -/
def verifyOtpWith (db : OtpDb) (email otp purpose : String) (now : Nat) :
    VerifyOtpResult × OtpDb :=
  match db.find? (matchPred email purpose) with
  | none => (.notFound, db)
  | some rcd =>
    if otpLocked rcd then (.locked, db.eraseP (matchPred email purpose))
    else if otpExpired rcd now then (.expired, db.eraseP (matchPred email purpose))
    else if rcd.otp != otp then
      (.invalidCode ((MAX_ATTEMPTS : Int) - (rcd.attempts + 1)),
       updateFirst (matchPred email purpose) (fun r => { r with attempts := r.attempts + 1 }) db)
    else
      (.verifiedOk,
       updateFirst (matchPred email purpose) (fun r => { r with isVerified := true }) db)

/-- The `verify_otp` view: verification of registration challenges. -/
def verify_otp (db : OtpDb) (email otp : String) (now : Nat) : VerifyOtpResult × OtpDb :=
  verifyOtpWith db email otp "registration" now

/-- The `verify_reset_otp` view: verification of password-reset challenges. -/
def verify_reset_otp (db : OtpDb) (email otp : String) (now : Nat) : VerifyOtpResult × OtpDb :=
  verifyOtpWith db email otp "password_reset" now

/-- Response of the `send_otp` view: the HTTP status, which body was returned,
and whether `send_otp_email` was invoked at all. -/
structure SendOtpResult where
  status : Nat
  emailAlreadyRegistered : Bool
  dispatchAttempted : Bool
deriving Repr, DecidableEq

/-- The `send_otp` view. `SendOTPSerializer.validate_email` rejects an email that
already belongs to a `User` row with the 400 error `Email already registered.`;
otherwise every `EmailOTP` row for the email is deleted regardless of purpose
(`filter(email=email).delete()`), a fresh registration challenge expiring in 600
seconds is created, and the code is mailed; a dispatch failure yields a 500 but
the created row remains. -/
def send_otp (db : OtpDb) (registeredEmails : List String) (email newOtp : String)
    (now : Nat) (emailSendOk : Bool) : SendOtpResult × OtpDb :=
  if registeredEmails.contains email then
    (⟨400, true, false⟩, db)
  else
    let db1 := db.filter (fun r => !(r.email == email))
    let db2 : OtpDb := ⟨email, newOtp, "registration", now + 600, false, 0⟩ :: db1
    (⟨if emailSendOk then 200 else 500, false, true⟩, db2)

/-- The constant body of the `forgot_password` response. -/
def forgotPasswordMessage : String := "If this email is registered, an OTP has been sent."

/-- The `forgot_password` view. When a user with the email exists, every
password-reset challenge for the email is deleted, a fresh one is created and
mailed (the dispatch result is ignored); in every case the same 200 response
with the same body is returned. -/
def forgot_password (db : OtpDb) (userExists : Bool) (email newOtp : String)
    (now : Nat) (_emailSendOk : Bool) : (Nat × String) × OtpDb :=
  if userExists then
    let db1 := db.filter (fun r => !(matchPred email "password_reset" r))
    let db2 : OtpDb := ⟨email, newOtp, "password_reset", now + 600, false, 0⟩ :: db1
    ((200, forgotPasswordMessage), db2)
  else
    ((200, forgotPasswordMessage), db)

end OtpFlow

namespace OtpFlow

/-- A `User` row as far as registration reads and writes it: the stored password
is the salted hash `make_password` produces, never the plaintext. -/
structure UserRecord where
  username : String
  email : String
  password : String
deriving Repr, DecidableEq

/-- A `Role` row. -/
structure RoleRecord where
  name : String
  level : Nat
deriving Repr, DecidableEq

/-- `Role.NORMAL`, the level of the default role attached at registration. -/
def ROLE_NORMAL : Nat := 6

/-- The image of `django.contrib.auth.hashers.make_password`, modelled as an
injective tagging of the plaintext: the stored value determines that hashing
took place and is never the plaintext itself. -/
def make_password (p : String) : String := "pbkdf2_sha256$" ++ p

/-- A `UserProfile` row as registration creates it. -/
structure ProfileRecord where
  username : String
  roleLevel : Option Nat
  isVerified : Bool
deriving Repr, DecidableEq

/-- The tables the registration flow touches. -/
structure RegState where
  otps : OtpDb
  users : List UserRecord
  profiles : List ProfileRecord
  roles : List RoleRecord
deriving Repr, DecidableEq

/-- Outcomes of the `register` view: the two serializer rejections and the 201
creation carrying the new username. -/
inductive RegisterResult
  | emailNotVerified
  | usernameTaken
  | created (username : String)
deriving Repr, DecidableEq

/-- HTTP status of each `register` outcome. -/
def registerStatus : RegisterResult → Nat
  | .emailNotVerified => 400
  | .usernameTaken => 400
  | .created _ => 201

/-- The `register` view with `RegisterSerializer`. `validate_email` demands some
`EmailOTP` row for the email with `is_verified=True` — the filter carries no
purpose condition. `validate_username` rejects a taken username. On success the
user is stored with the `make_password` hash, a profile with the `Role.NORMAL`
default role is created, and every `EmailOTP` row for the email is deleted
(`filter(email=email).delete()`, again without a purpose condition). When both
serializer checks fail DRF reports both errors in one 400; the embedding keeps
the email error as the representative outcome. -/
def register (st : RegState) (email username password : String) :
    RegisterResult × RegState :=
  if (st.otps.find? (fun r => r.email == email && r.isVerified)).isNone then
    (.emailNotVerified, st)
  else if st.users.any (fun u => u.username == username) then
    (.usernameTaken, st)
  else
    let normalRole := st.roles.find? (fun r => r.level == ROLE_NORMAL)
    let user : UserRecord := ⟨username, email, make_password password⟩
    let profile : ProfileRecord := ⟨username, normalRole.map (fun r => r.level), true⟩
    (.created username,
     { st with
        otps := st.otps.filter (fun r => !(r.email == email)),
        users := st.users ++ [user],
        profiles := st.profiles ++ [profile] })

end OtpFlow

/-!
Claim theorems. Each claim of the specification gets one theorem below, with a
witness instantiating its hypotheses at concrete inputs and, where the code
diverges from the claim, a concrete counterexample.
-/

/-- Reading back the byte written by `List.set` at an in-range index. -/
theorem getD_set_self : ∀ (l : Bytes) (i b : Nat), i < l.length →
    (l.set i b).getD i 0 = b
  | [], i, b, h => by simp at h
  | _ :: _, 0, b, _ => rfl
  | x :: xs, i + 1, b, h => by
    simpa using getD_set_self xs i b (by simpa using h)

/-- A one-byte change preserves the length of the string. -/
theorem oneByteChange_length {s t : Bytes} (h : ApiAuth.oneByteChange s t) :
    t.length = s.length := by
  obtain ⟨i, b, hi, hb, rfl⟩ := h
  simp

/-- A one-byte change produces a different string. -/
theorem oneByteChange_ne {s t : Bytes} (h : ApiAuth.oneByteChange s t) : t ≠ s := by
  obtain ⟨i, b, hi, hb, rfl⟩ := h
  intro he
  apply hb
  calc b = (s.set i b).getD i 0 := (getD_set_self s i b hi).symm
    _ = s.getD i 0 := by rw [he]

/-- Componentwise injectivity of the canonical message when the component
lengths agree. -/
theorem canonicalMessage_inj {r r' : ApiAuth.ApiRequest}
    (_hm : r'.method.length = r.method.length) (hu : r'.url.length = r.url.length)
    (hb : r'.body.length = r.body.length)
    (ht : r'.timestampHeader.length = r.timestampHeader.length)
    (h : ApiAuth.canonicalMessage r' = ApiAuth.canonicalMessage r) :
    r'.method = r.method ∧ r'.url = r.url ∧ r'.body = r.body ∧
      r'.timestampHeader = r.timestampHeader := by
  unfold ApiAuth.canonicalMessage at h
  obtain ⟨h1, h2⟩ := List.append_inj' h ht
  obtain ⟨h3, h4⟩ := List.append_inj' h1 hb
  obtain ⟨h5, h6⟩ := List.append_inj' h3 hu
  exact ⟨h5, h6, h4, h2⟩

/-- A single-byte mutation of any signed component changes the canonical message. -/
theorem singleByteMutation_canonicalMessage_ne {r r' : ApiAuth.ApiRequest}
    (h : ApiAuth.singleByteMutation r r') :
    ApiAuth.canonicalMessage r' ≠ ApiAuth.canonicalMessage r := by
  intro he
  rcases h with ⟨hc, h1, h2, h3⟩ | ⟨h1, hc, h2, h3⟩ | ⟨h1, h2, hc, h3⟩ | ⟨h1, h2, h3, hc⟩
  · exact oneByteChange_ne hc (canonicalMessage_inj (oneByteChange_length hc)
      (by rw [h1]) (by rw [h2]) (by rw [h3]) he).1
  · exact oneByteChange_ne hc (canonicalMessage_inj (by rw [h1])
      (oneByteChange_length hc) (by rw [h2]) (by rw [h3]) he).2.1
  · exact oneByteChange_ne hc (canonicalMessage_inj (by rw [h1]) (by rw [h2])
      (oneByteChange_length hc) (by rw [h3]) he).2.2.1
  · exact oneByteChange_ne hc (canonicalMessage_inj (by rw [h1]) (by rw [h2])
      (by rw [h3]) (oneByteChange_length hc) he).2.2.2

/-- C1: for a request referencing an active, non-expired key, `_validate_hmac`
accepts a signature exactly when it equals the hex HMAC-SHA256 digest, keyed by
the key secret (`api_key.key`), of method, absolute url, body and timestamp
header concatenated. A single-byte mutation of any of the four components always
changes the signed message, so a previously valid signature can only still be
accepted on the mutated request if the two distinct messages collide under
HMAC-SHA256; whenever their digests differ the mutated request is rejected with
`AuthenticationFailed`. -/
theorem apikey_hmac_signature_correct :
    ∀ (k : ApiAuth.APIKey) (r : ApiAuth.ApiRequest) (sig : Bytes),
      (ApiAuth.validate_hmac r k sig = true ↔
        sig = Sha256.hmacSha256Hex k.key (ApiAuth.canonicalMessage r)) ∧
      ∀ r', ApiAuth.singleByteMutation r r' →
        ApiAuth.canonicalMessage r' ≠ ApiAuth.canonicalMessage r ∧
        (sig = Sha256.hmacSha256Hex k.key (ApiAuth.canonicalMessage r) →
          ApiAuth.validate_hmac r' k sig = true →
          Sha256.hmacSha256Hex k.key (ApiAuth.canonicalMessage r') =
            Sha256.hmacSha256Hex k.key (ApiAuth.canonicalMessage r)) := by
  intro k r sig
  have base : ∀ r0 : ApiAuth.ApiRequest, ApiAuth.validate_hmac r0 k sig = true ↔
      sig = Sha256.hmacSha256Hex k.key (ApiAuth.canonicalMessage r0) := by
    intro r0
    unfold ApiAuth.validate_hmac
    rw [beq_iff_eq]
    exact eq_comm
  refine ⟨base r, fun r' hmut => ⟨singleByteMutation_canonicalMessage_ne hmut, ?_⟩⟩
  intro hsig hacc
  have := (base r').mp hacc
  rw [← hsig, this]

/-- Concrete key for the C1 witness. -/
def hmacKeyEx : ApiAuth.APIKey := ⟨1, [107, 49], 7, true, 1000, none, none⟩

/-- Concrete request for the C1 witness: POST /a with body of two bytes. -/
def hmacReqEx : ApiAuth.ApiRequest :=
  ⟨[80, 79, 83, 84], [47, 97], [104, 105], [49, 50], none⟩

/-- The C1 witness request with the first body byte changed. -/
def hmacReqExMut : ApiAuth.ApiRequest := { hmacReqEx with body := hmacReqEx.body.set 0 106 }

/-- The correctly computed signature for the C1 witness request. -/
def hmacSigEx : Bytes := Sha256.hmacSha256Hex hmacKeyEx.key (ApiAuth.canonicalMessage hmacReqEx)

/-- Witness for C1: the correctly computed signature is accepted, and the
single-byte body mutation changes the signed message. -/
theorem apikey_hmac_signature_correct_witness :
    ApiAuth.validate_hmac hmacReqEx hmacKeyEx hmacSigEx = true ∧
    ApiAuth.canonicalMessage hmacReqExMut ≠ ApiAuth.canonicalMessage hmacReqEx := by
  obtain ⟨h1, h2⟩ := apikey_hmac_signature_correct hmacKeyEx hmacReqEx hmacSigEx
  refine ⟨h1.mpr rfl, ?_⟩
  exact (h2 hmacReqExMut
    (Or.inr (Or.inr (Or.inl ⟨rfl, rfl, ⟨0, 106, by decide, by decide, rfl⟩, rfl⟩)))).1

/-- C8: the `forgot_password` response is independent of whether the submitted
email belongs to a registered user: same 200 status and byte-identical constant
body in both cases, whatever the stored challenges and the mail outcome. -/
theorem forgot_password_uniform_response :
    ∀ (db : OtpFlow.OtpDb) (email newOtp : String) (now : Nat) (sendOk sendOk' : Bool),
      (OtpFlow.forgot_password db true email newOtp now sendOk).1 =
        (OtpFlow.forgot_password db false email newOtp now sendOk').1 ∧
      (OtpFlow.forgot_password db true email newOtp now sendOk).1.1 = 200 ∧
      (OtpFlow.forgot_password db true email newOtp now sendOk).1.2 =
        OtpFlow.forgotPasswordMessage := by
  intro db email newOtp now s s'
  simp [OtpFlow.forgot_password]

/-- C10: when a user with the submitted email already exists, `send_otp` fails
with the 400 validation error, creates no challenge and dispatches no mail. -/
theorem send_otp_rejects_registered_email :
    ∀ (db : OtpFlow.OtpDb) (regs : List String) (email newOtp : String) (now : Nat)
      (sendOk : Bool), email ∈ regs →
      (OtpFlow.send_otp db regs email newOtp now sendOk).1.status = 400 ∧
      (OtpFlow.send_otp db regs email newOtp now sendOk).1.emailAlreadyRegistered = true ∧
      (OtpFlow.send_otp db regs email newOtp now sendOk).1.dispatchAttempted = false ∧
      (OtpFlow.send_otp db regs email newOtp now sendOk).2 = db := by
  intro db regs email newOtp now sendOk h
  simp [OtpFlow.send_otp, h]

/-- Witness for C10 at a concrete state: the registered email is rejected and
the table is untouched. -/
theorem send_otp_rejects_registered_email_witness :
    (OtpFlow.send_otp [] ["a@x.com"] "a@x.com" "123456" 50 true).1.status = 400 ∧
    (OtpFlow.send_otp [] ["a@x.com"] "a@x.com" "123456" 50 true).1.emailAlreadyRegistered = true ∧
    (OtpFlow.send_otp [] ["a@x.com"] "a@x.com" "123456" 50 true).1.dispatchAttempted = false ∧
    (OtpFlow.send_otp [] ["a@x.com"] "a@x.com" "123456" 50 true).2 = [] :=
  send_otp_rejects_registered_email [] ["a@x.com"] "a@x.com" "123456" 50 true
    (by simp)

/-- C3: the fifth consecutive failed password sets `lockout_until` fifteen
minutes ahead and answers with the lockout-duration message rather than an
attempts-remaining one; while `lockout_until` lies in the future any login
attempt fails with the 429 reporting the remaining minutes and leaves the
profile unchanged; a correct password while not locked out resets the counter
to zero and clears the lockout. -/
theorem login_lockout_policy :
    ∀ (p : AuthViews.UserProfile) (now : Nat),
      (p.failedLoginAttempts = 4 → AuthViews.is_locked_out p now = false →
        AuthViews.login true (some p) false now =
          (.lockedForDuration 15, some ⟨5, some (now + 900)⟩) ∧
        AuthViews.loginStatus (.lockedForDuration 15) = 429) ∧
      (∀ t, p.lockoutUntil = some t → now < t → ∀ pw,
        AuthViews.login true (some p) pw now =
          (.lockedRemaining ((t - now) % 86400 / 60), some p) ∧
        AuthViews.loginStatus (.lockedRemaining ((t - now) % 86400 / 60)) = 429) ∧
      (AuthViews.is_locked_out p now = false → p.failedLoginAttempts < 5 →
        AuthViews.login true (some p) true now = (.loginOk, some ⟨0, none⟩)) := by
  intro p now
  refine ⟨fun hfa hlock => ?_, fun t ht hlt pw => ?_, fun hlock _hfa => ?_⟩
  · constructor
    · simp [AuthViews.login, hlock, AuthViews.record_failed_login, hfa,
        AuthViews.MAX_LOGIN_ATTEMPTS, AuthViews.LOCKOUT_DURATION_MINUTES]
    · rfl
  · constructor
    · simp [AuthViews.login, AuthViews.is_locked_out, ht, hlt,
        AuthViews.remainingLockoutMinutes]
    · rfl
  · simp [AuthViews.login, hlock, AuthViews.reset_login_attempts]

/-- Witness for C3 at concrete profiles: the fifth failure locks for fifteen
minutes, a locked profile is reported with remaining minutes, and a correct
password resets the counter. -/
theorem login_lockout_policy_witness :
    AuthViews.login true (some ⟨4, none⟩) false 1000 =
      (.lockedForDuration 15, some ⟨5, some 1900⟩) ∧
    AuthViews.login true (some ⟨5, some 1600⟩) false 1000 =
      (.lockedRemaining 10, some ⟨5, some 1600⟩) ∧
    AuthViews.login true (some ⟨2, none⟩) true 1000 = (.loginOk, some ⟨0, none⟩) := by
  refine ⟨?_, ?_, ?_⟩
  · exact ((login_lockout_policy ⟨4, none⟩ 1000).1 rfl rfl).1
  · exact ((login_lockout_policy ⟨5, some 1600⟩ 1000).2.1 1600 rfl (by decide) false).1
  · exact (login_lockout_policy ⟨2, none⟩ 1000).2.2 rfl (by decide)

/-- Updating the first match commutes with `find?` when `f` preserves the predicate. -/
theorem find?_updateFirst {α : Type} (p : α → Bool) (f : α → α)
    (hpf : ∀ a, p (f a) = p a) (l : List α) :
    (updateFirst p f l).find? p = (l.find? p).map f := by
  induction l with
  | nil => rfl
  | cons x xs ih =>
    by_cases hx : p x = true
    · rw [updateFirst, if_pos hx, List.find?_cons_of_pos _ ((hpf x).trans hx),
        List.find?_cons_of_pos _ hx, Option.map_some']
    · rw [updateFirst, if_neg hx, List.find?_cons_of_neg _ hx,
        List.find?_cons_of_neg _ hx, ih]

/-- Updating the first match twice is updating it once with the composite, when
`f` preserves the predicate. -/
theorem updateFirst_updateFirst {α : Type} (p : α → Bool) (f : α → α)
    (hpf : ∀ a, p (f a) = p a) (l : List α) :
    updateFirst p f (updateFirst p f l) = updateFirst p (fun a => f (f a)) l := by
  induction l with
  | nil => rfl
  | cons x xs ih =>
    by_cases hx : p x = true
    · rw [updateFirst, if_pos hx, updateFirst, if_pos ((hpf x).trans hx),
        updateFirst, if_pos hx]
    · rw [updateFirst, if_neg hx, updateFirst, if_neg hx, updateFirst, if_neg hx, ih]

/-- When at most one element matches, erasing the first match leaves no match. -/
theorem find?_eraseP_of_unique {α : Type} (p : α → Bool) :
    ∀ l : List α, (l.filter p).length ≤ 1 → (l.eraseP p).find? p = none := by
  intro l
  induction l with
  | nil => exact fun _ => rfl
  | cons x xs ih =>
    intro hlen
    by_cases hx : p x = true
    · rw [List.eraseP_cons_of_pos hx]
      rw [List.filter_cons_of_pos hx] at hlen
      have hnil : xs.filter p = [] := by
        cases hf : xs.filter p with
        | nil => rfl
        | cons y ys => rw [hf] at hlen; simp at hlen
      exact List.find?_eq_none.mpr fun a ha hpa =>
        (List.filter_eq_nil_iff.mp hnil a ha) hpa
    · rw [List.eraseP_cons_of_neg hx, List.find?_cons_of_neg _ hx]
      rw [List.filter_cons_of_neg hx] at hlen
      exact ih hlen

/-- C6: with a registration challenge stored for the email (the invariant keeps
at most one), `verify_otp` answers `Locked` (429) exactly when the attempts
counter already reads five or more; that failure also deletes the challenge, so
the same verification afterwards answers `NotFound`. -/
theorem verify_otp_lock_behavior :
    ∀ (db : OtpFlow.OtpDb) (email code code2 : String) (now now2 : Nat)
      (rcd : OtpFlow.EmailOTP),
      db.find? (OtpFlow.matchPred email "registration") = some rcd →
      (db.filter (OtpFlow.matchPred email "registration")).length ≤ 1 →
      (((OtpFlow.verify_otp db email code now).1 = .locked) ↔ 5 ≤ rcd.attempts) ∧
      (5 ≤ rcd.attempts →
        OtpFlow.verifyStatus (OtpFlow.verify_otp db email code now).1 = 429 ∧
        OtpFlow.verify_otp (OtpFlow.verify_otp db email code now).2 email code2 now2 =
          (.notFound, (OtpFlow.verify_otp db email code now).2)) := by
  intro db email code code2 now now2 rcd hfind huniq
  by_cases hlock : OtpFlow.otpLocked rcd = true
  · have hle : 5 ≤ rcd.attempts := by
      simpa [OtpFlow.otpLocked, OtpFlow.MAX_ATTEMPTS] using hlock
    have hrun : OtpFlow.verify_otp db email code now =
        (.locked, db.eraseP (OtpFlow.matchPred email "registration")) := by
      simp [OtpFlow.verify_otp, OtpFlow.verifyOtpWith, hfind, hlock]
    refine ⟨by simp [hrun, hle], fun _ => ⟨by simp [hrun, OtpFlow.verifyStatus], ?_⟩⟩
    have hnone : (db.eraseP (OtpFlow.matchPred email "registration")).find?
        (OtpFlow.matchPred email "registration") = none :=
      find?_eraseP_of_unique _ db huniq
    rw [hrun]
    simp [OtpFlow.verify_otp, OtpFlow.verifyOtpWith, hnone]
  · have hlt : ¬ 5 ≤ rcd.attempts := by
      simpa [OtpFlow.otpLocked, OtpFlow.MAX_ATTEMPTS] using hlock
    refine ⟨⟨fun hres => absurd ?_ hlt, fun h => absurd h hlt⟩, fun h => absurd h hlt⟩
    by_cases hexp : OtpFlow.otpExpired rcd now = true
    · simp [OtpFlow.verify_otp, OtpFlow.verifyOtpWith, hfind, hlock, hexp] at hres
    · by_cases hne : (rcd.otp != code) = true
      · simp [OtpFlow.verify_otp, OtpFlow.verifyOtpWith, hfind, hlock, hexp, hne] at hres
      · simp [OtpFlow.verify_otp, OtpFlow.verifyOtpWith, hfind, hlock, hexp, hne] at hres

/-- Witness for C6 at a concrete table: five recorded attempts answer `Locked`
with 429, delete the challenge, and the next verification answers `NotFound`. -/
theorem verify_otp_lock_behavior_witness :
    ((OtpFlow.verify_otp [⟨"a@x.com", "123456", "registration", 900, false, 5⟩]
        "a@x.com" "123456" 10).1 = .locked) ∧
    OtpFlow.verify_otp
        (OtpFlow.verify_otp [⟨"a@x.com", "123456", "registration", 900, false, 5⟩]
          "a@x.com" "123456" 10).2 "a@x.com" "000000" 20 =
      (.notFound,
        (OtpFlow.verify_otp [⟨"a@x.com", "123456", "registration", 900, false, 5⟩]
          "a@x.com" "123456" 10).2) := by
  obtain ⟨h1, h2⟩ := verify_otp_lock_behavior
    [⟨"a@x.com", "123456", "registration", 900, false, 5⟩]
    "a@x.com" "123456" "000000" 10 20 ⟨"a@x.com", "123456", "registration", 900, false, 5⟩
    (by simp [OtpFlow.matchPred]) (by simp [OtpFlow.matchPred])
  exact ⟨h1.mpr (by decide), (h2 (by decide)).2⟩

/-- C7: with an unlocked, unexpired registration challenge stored, verifying the
matching code marks it verified, returns the 200 success, does not delete the
row, and an identical second verification while the row remains succeeds again
and leaves the table unchanged. -/
theorem verify_otp_success_idempotent :
    ∀ (db : OtpFlow.OtpDb) (email : String) (now now2 : Nat) (rcd : OtpFlow.EmailOTP),
      db.find? (OtpFlow.matchPred email "registration") = some rcd →
      rcd.attempts < 5 → now ≤ rcd.expiryTime → now2 ≤ rcd.expiryTime →
      (OtpFlow.verify_otp db email rcd.otp now).1 = .verifiedOk ∧
      OtpFlow.verifyStatus (OtpFlow.verify_otp db email rcd.otp now).1 = 200 ∧
      ((OtpFlow.verify_otp db email rcd.otp now).2).find?
          (OtpFlow.matchPred email "registration") = some { rcd with isVerified := true } ∧
      OtpFlow.verify_otp (OtpFlow.verify_otp db email rcd.otp now).2 email rcd.otp now2 =
        (.verifiedOk, (OtpFlow.verify_otp db email rcd.otp now).2) := by
  intro db email now now2 rcd hfind hatt hexp hexp2
  have hlock : OtpFlow.otpLocked rcd = false := by
    simp [OtpFlow.otpLocked, OtpFlow.MAX_ATTEMPTS]; omega
  have hexpb : OtpFlow.otpExpired rcd now = false := by
    simp [OtpFlow.otpExpired]; omega
  have hrun : OtpFlow.verify_otp db email rcd.otp now =
      (.verifiedOk, updateFirst (OtpFlow.matchPred email "registration")
        (fun r => { r with isVerified := true }) db) := by
    simp [OtpFlow.verify_otp, OtpFlow.verifyOtpWith, hfind, hlock, hexpb]
  have hpres : ∀ a : OtpFlow.EmailOTP,
      OtpFlow.matchPred email "registration" { a with isVerified := true } =
        OtpFlow.matchPred email "registration" a := fun a => rfl
  have hfind2 : (updateFirst (OtpFlow.matchPred email "registration")
      (fun r => { r with isVerified := true }) db).find?
      (OtpFlow.matchPred email "registration") = some { rcd with isVerified := true } := by
    rw [find?_updateFirst _ _ hpres, hfind, Option.map_some']
  have hlock2 : OtpFlow.otpLocked { rcd with isVerified := true } = false := by
    simp [OtpFlow.otpLocked, OtpFlow.MAX_ATTEMPTS]; omega
  have hexpb2 : OtpFlow.otpExpired { rcd with isVerified := true } now2 = false := by
    simp [OtpFlow.otpExpired]; omega
  refine ⟨by simp [hrun], by simp [hrun, OtpFlow.verifyStatus], by simp [hrun, hfind2], ?_⟩
  have hsecond : OtpFlow.verify_otp (OtpFlow.verify_otp db email rcd.otp now).2
      email rcd.otp now2 =
      (.verifiedOk, updateFirst (OtpFlow.matchPred email "registration")
        (fun r => { r with isVerified := true })
        (OtpFlow.verify_otp db email rcd.otp now).2) := by
    rw [hrun]
    simp [OtpFlow.verify_otp, OtpFlow.verifyOtpWith, hfind2, hlock2, hexpb2]
  rw [hsecond, hrun]
  show (OtpFlow.VerifyOtpResult.verifiedOk,
      updateFirst (OtpFlow.matchPred email "registration")
        (fun r => { r with isVerified := true })
        (updateFirst (OtpFlow.matchPred email "registration")
          (fun r => { r with isVerified := true }) db)) = _
  rw [updateFirst_updateFirst _ _ hpres]

/-- Witness for C7 at a concrete table: matching the code verifies, keeps the
row, and an identical second verification succeeds without further change. -/
theorem verify_otp_success_idempotent_witness :
    (OtpFlow.verify_otp [⟨"a@x.com", "123456", "registration", 900, false, 2⟩]
        "a@x.com" "123456" 10).1 = .verifiedOk ∧
    OtpFlow.verify_otp
        (OtpFlow.verify_otp [⟨"a@x.com", "123456", "registration", 900, false, 2⟩]
          "a@x.com" "123456" 10).2 "a@x.com" "123456" 20 =
      (.verifiedOk,
        (OtpFlow.verify_otp [⟨"a@x.com", "123456", "registration", 900, false, 2⟩]
          "a@x.com" "123456" 10).2) := by
  obtain ⟨h1, _h2, _h3, h4⟩ := verify_otp_success_idempotent
    [⟨"a@x.com", "123456", "registration", 900, false, 2⟩] "a@x.com" 10 20
    ⟨"a@x.com", "123456", "registration", 900, false, 2⟩
    (by simp [OtpFlow.matchPred]) (by decide) (by decide) (by decide)
  exact ⟨h1, h4⟩

/-- Concrete table for the C5 counterexample: one password-reset challenge. -/
def otherPurposeDb : OtpFlow.OtpDb := [⟨"a@x.com", "111111", "password_reset", 1000, false, 0⟩]

/-- Counterexample to C5 as stated: issuing a registration OTP for an email also
deletes the stored password-reset challenge of the same email, so challenges of
the other purpose for that email do not remain unchanged. -/
theorem send_otp_clears_other_purpose :
    otherPurposeDb.find? (OtpFlow.matchPred "a@x.com" "password_reset") =
      some ⟨"a@x.com", "111111", "password_reset", 1000, false, 0⟩ ∧
    (OtpFlow.send_otp otherPurposeDb [] "a@x.com" "222222" 100 true).2.find?
      (OtpFlow.matchPred "a@x.com" "password_reset") = none := by
  constructor
  · decide
  · decide

/-- C5 amended: `send_otp` (registration issuance) deletes every challenge for
the email, both purposes, and leaves exactly the fresh registration challenge
for it; challenges of other emails are untouched, and any code other than the
fresh one no longer verifies. `forgot_password` (reset issuance) deletes exactly
the (email, password_reset) pair, keeps every other row including the
registration challenge of the same email, and the old reset code no longer
verifies. -/
theorem otp_issue_invalidation_frame :
    ∀ (db : OtpFlow.OtpDb) (regs : List String) (email newOtp : String) (now : Nat)
      (sendOk : Bool),
      (email ∉ regs →
        ((OtpFlow.send_otp db regs email newOtp now sendOk).2.find?
            (OtpFlow.matchPred email "registration") =
          some ⟨email, newOtp, "registration", now + 600, false, 0⟩) ∧
        (∀ r ∈ (OtpFlow.send_otp db regs email newOtp now sendOk).2,
          r.email = email → r = ⟨email, newOtp, "registration", now + 600, false, 0⟩) ∧
        (∀ r ∈ db, r.email ≠ email →
          r ∈ (OtpFlow.send_otp db regs email newOtp now sendOk).2) ∧
        (∀ c, c ≠ newOtp →
          (OtpFlow.verify_otp (OtpFlow.send_otp db regs email newOtp now sendOk).2
            email c now).1 ≠ .verifiedOk)) ∧
      ((OtpFlow.forgot_password db true email newOtp now sendOk).2.find?
          (OtpFlow.matchPred email "password_reset") =
        some ⟨email, newOtp, "password_reset", now + 600, false, 0⟩) ∧
      (∀ r ∈ db, ¬(r.email = email ∧ r.purpose = "password_reset") →
        r ∈ (OtpFlow.forgot_password db true email newOtp now sendOk).2) ∧
      (∀ c, c ≠ newOtp →
        (OtpFlow.verify_reset_otp
          (OtpFlow.forgot_password db true email newOtp now sendOk).2
          email c now).1 ≠ .verifiedOk) := by
  intro db regs email newOtp now sendOk
  have hsendDb : ∀ hreg : email ∉ regs,
      (OtpFlow.send_otp db regs email newOtp now sendOk).2 =
        ⟨email, newOtp, "registration", now + 600, false, 0⟩ ::
          db.filter (fun r => !(r.email == email)) := by
    intro hreg
    simp [OtpFlow.send_otp, hreg]
  have hforgotDb : (OtpFlow.forgot_password db true email newOtp now sendOk).2 =
      ⟨email, newOtp, "password_reset", now + 600, false, 0⟩ ::
        db.filter (fun r => !(OtpFlow.matchPred email "password_reset" r)) := by
    simp [OtpFlow.forgot_password]
  refine ⟨fun hreg => ?_, ?_, ?_, ?_⟩
  · rw [hsendDb hreg]
    refine ⟨?_, ?_, ?_, ?_⟩
    · rw [List.find?_cons_of_pos _ (by simp [OtpFlow.matchPred])]
    · intro r hr hre
      rcases List.mem_cons.mp hr with h | h
      · exact h
      · exact absurd hre (by simpa using (List.mem_filter.mp h).2)
    · intro r hr hne
      exact List.mem_cons_of_mem _ (List.mem_filter.mpr ⟨hr, by simpa using hne⟩)
    · intro c hc
      have hfind : (⟨email, newOtp, "registration", now + 600, false, 0⟩ ::
          db.filter (fun r => !(r.email == email)) : OtpFlow.OtpDb).find?
          (OtpFlow.matchPred email "registration") =
          some ⟨email, newOtp, "registration", now + 600, false, 0⟩ :=
        List.find?_cons_of_pos _ (by simp [OtpFlow.matchPred])
      simp [OtpFlow.verify_otp, OtpFlow.verifyOtpWith, hfind, OtpFlow.otpLocked,
        OtpFlow.otpExpired, OtpFlow.MAX_ATTEMPTS, Ne.symm hc]
  · rw [hforgotDb]
    rw [List.find?_cons_of_pos _ (by simp [OtpFlow.matchPred])]
  · intro r hr hno
    rw [hforgotDb]
    refine List.mem_cons_of_mem _ (List.mem_filter.mpr ⟨hr, ?_⟩)
    simp [OtpFlow.matchPred]
    exact not_and_or.mp hno
  · intro c hc
    rw [hforgotDb]
    have hfind : (⟨email, newOtp, "password_reset", now + 600, false, 0⟩ ::
        db.filter (fun r => !(OtpFlow.matchPred email "password_reset" r)) :
          OtpFlow.OtpDb).find?
        (OtpFlow.matchPred email "password_reset") =
        some ⟨email, newOtp, "password_reset", now + 600, false, 0⟩ :=
      List.find?_cons_of_pos _ (by simp [OtpFlow.matchPred])
    simp [OtpFlow.verify_reset_otp, OtpFlow.verifyOtpWith, hfind, OtpFlow.otpLocked,
      OtpFlow.otpExpired, OtpFlow.MAX_ATTEMPTS, Ne.symm hc]

/-- Witness for C5 amended at a concrete table: the new registration challenge
is stored, a challenge of another email survives, and the stale code fails. -/
theorem otp_issue_invalidation_frame_witness :
    ((OtpFlow.send_otp [⟨"b@x.com", "333333", "registration", 400, false, 0⟩]
        [] "a@x.com" "222222" 100 true).2.find?
      (OtpFlow.matchPred "a@x.com" "registration") =
        some ⟨"a@x.com", "222222", "registration", 700, false, 0⟩) ∧
    (⟨"b@x.com", "333333", "registration", 400, false, 0⟩ : OtpFlow.EmailOTP) ∈
      (OtpFlow.send_otp [⟨"b@x.com", "333333", "registration", 400, false, 0⟩]
        [] "a@x.com" "222222" 100 true).2 ∧
    (OtpFlow.verify_otp (OtpFlow.send_otp
        [⟨"b@x.com", "333333", "registration", 400, false, 0⟩]
        [] "a@x.com" "222222" 100 true).2 "a@x.com" "111111" 100).1 ≠ .verifiedOk := by
  obtain ⟨hs, _⟩ := otp_issue_invalidation_frame
    [⟨"b@x.com", "333333", "registration", 400, false, 0⟩] [] "a@x.com" "222222" 100 true
  obtain ⟨h1, _h2, h3, h4⟩ := hs (by simp)
  exact ⟨h1, h3 _ (by simp) (by decide), h4 "111111" (by decide)⟩

/-- Concrete state for the C4 counterexample: the only challenge for the email
is a verified password-reset one; no registration challenge exists. -/
def resetVerifiedState : OtpFlow.RegState :=
  { otps := [⟨"a@x.com", "111111", "password_reset", 1000, true, 0⟩],
    users := [], profiles := [], roles := [⟨"Normal User", 6⟩] }

/-- Counterexample to C4 as stated: although no verified challenge of purpose
registration exists for the email, register succeeds with 201 rather than
failing with EmailNotVerified, because the serializer filter carries no purpose
condition. -/
theorem register_accepts_reset_purpose_otp :
    (∀ r ∈ resetVerifiedState.otps, ¬(r.purpose = "registration" ∧ r.isVerified = true)) ∧
    (OtpFlow.register resetVerifiedState "a@x.com" "alice" "Str0ngPass").1 =
      .created "alice" ∧
    OtpFlow.registerStatus
      (OtpFlow.register resetVerifiedState "a@x.com" "alice" "Str0ngPass").1 = 201 := by
  refine ⟨by decide, by decide, by decide⟩

/-- C4 amended: register fails with EmailNotVerified exactly when no verified
challenge for the email exists, of any purpose (the serializer filter has no
purpose condition); on success it stores the user with the hash that
`make_password` yields (never the plaintext), attaches the default role of level
`Role.NORMAL`, and deletes every challenge for the email. -/
theorem register_gating_and_effects :
    ∀ (st : OtpFlow.RegState) (email username password : String),
      (((OtpFlow.register st email username password).1 = .emailNotVerified) ↔
        st.otps.find? (fun r => r.email == email && r.isVerified) = none) ∧
      OtpFlow.make_password password ≠ password ∧
      ((OtpFlow.register st email username password).1 = .created username →
        (⟨username, email, OtpFlow.make_password password⟩ : OtpFlow.UserRecord) ∈
          (OtpFlow.register st email username password).2.users ∧
        (⟨username, ((st.roles.find? (fun r => r.level == OtpFlow.ROLE_NORMAL)).map
            (fun r => r.level)), true⟩ : OtpFlow.ProfileRecord) ∈
          (OtpFlow.register st email username password).2.profiles ∧
        ∀ r ∈ (OtpFlow.register st email username password).2.otps, r.email ≠ email) := by
  intro st email username password
  have hmp : OtpFlow.make_password password ≠ password := by
    intro h
    have hlen := congrArg String.length h
    have h14 : ("pbkdf2_sha256$" : String).length = 14 := rfl
    simp only [OtpFlow.make_password, String.length_append, h14] at hlen
    omega
  by_cases hfind : st.otps.find? (fun r => r.email == email && r.isVerified) = none
  · refine ⟨by simp [OtpFlow.register, hfind], hmp, fun hc => ?_⟩
    rw [show (OtpFlow.register st email username password).1 = .emailNotVerified by
      simp [OtpFlow.register, hfind]] at hc
    exact absurd hc (by simp)
  · by_cases huser : st.users.any (fun u => u.username == username) = true
    · refine ⟨?_, hmp, fun hc => ?_⟩
      · rw [show (OtpFlow.register st email username password).1 = .usernameTaken by
          simp [OtpFlow.register, hfind, huser]]
        simp [hfind]
      · rw [show (OtpFlow.register st email username password).1 = .usernameTaken by
          simp [OtpFlow.register, hfind, huser]] at hc
        exact absurd hc (by simp)
    · have hrun : OtpFlow.register st email username password =
          (.created username,
           { st with
              otps := st.otps.filter (fun r => !(r.email == email)),
              users := st.users ++
                [⟨username, email, OtpFlow.make_password password⟩],
              profiles := st.profiles ++
                [⟨username, ((st.roles.find? (fun r => r.level == OtpFlow.ROLE_NORMAL)).map
                  (fun r => r.level)), true⟩] }) := by
        simp [OtpFlow.register, hfind, huser]
      refine ⟨?_, hmp, fun _ => ⟨?_, ?_, ?_⟩⟩
      · rw [show (OtpFlow.register st email username password).1 = .created username by
          simp [hrun]]
        simp [hfind]
      · simp [hrun]
      · simp [hrun]
      · intro r hr
        rw [hrun] at hr
        simpa using (List.mem_filter.mp hr).2

/-- Witness for C4 amended at a concrete state with a verified registration
challenge: the user and profile rows appear and the challenges are gone. -/
theorem register_gating_and_effects_witness :
    (⟨"alice", "a@x.com", OtpFlow.make_password "Str0ngPass"⟩ : OtpFlow.UserRecord) ∈
      (OtpFlow.register
        ⟨[⟨"a@x.com", "111111", "registration", 1000, true, 0⟩], [], [],
          [⟨"Normal User", 6⟩]⟩ "a@x.com" "alice" "Str0ngPass").2.users ∧
    (⟨"alice", some 6, true⟩ : OtpFlow.ProfileRecord) ∈
      (OtpFlow.register
        ⟨[⟨"a@x.com", "111111", "registration", 1000, true, 0⟩], [], [],
          [⟨"Normal User", 6⟩]⟩ "a@x.com" "alice" "Str0ngPass").2.profiles := by
  obtain ⟨_h1, _h2, h3⟩ := register_gating_and_effects
    ⟨[⟨"a@x.com", "111111", "registration", 1000, true, 0⟩], [], [],
      [⟨"Normal User", 6⟩]⟩ "a@x.com" "alice" "Str0ngPass"
  obtain ⟨hu, hp, _⟩ := h3 (by decide)
  exact ⟨hu, by simpa using hp⟩

/-- Concrete key for the C9 counterexample. -/
def c9Key : ApiAuth.APIKey := ⟨1, [107], 7, true, 100, none, none⟩

/-- Concrete store state for the C9 counterexample. -/
def c9St : ApiAuth.AuthState := ⟨[c9Key], [], []⟩

/-- Concrete request for the C9 counterexample: a GET with the bare key header. -/
def c9Req : ApiAuth.ApiRequest := ⟨[71, 69, 84], [47], [], [], some [107]⟩

/-- Counterexample to C9 as stated: the very same request that authenticates
when every store write succeeds fails with AuthenticationFailed when the
last-used update raises, because the blanket handler catches the raise. -/
theorem update_last_used_failure_fails_request :
    (ApiAuth.authenticate c9St c9Req 5 false false).1 = .success 7 1 ∧
    (ApiAuth.authenticate c9St c9Req 5 true false).1 = .failed "Authentication failed" ∧
    (ApiAuth.authenticate c9St c9Req 5 true false).1 ≠ .success 7 1 := by
  refine ⟨by decide, by decide, by decide⟩

/-- C9 amended: after the lookup, signature and rate-limit checks pass, a
failure while appending the usage record is swallowed and the authenticated
pair is still returned; a failure while updating the last-used timestamp,
however, propagates to the blanket handler and the request fails with
AuthenticationFailed. -/
theorem usage_logging_is_best_effort :
    ∀ (st : ApiAuth.AuthState) (r : ApiAuth.ApiRequest) (now u kid : Nat)
      (logFails : Bool),
      (ApiAuth.authenticate st r now false false).1 = .success u kid →
      (ApiAuth.authenticate st r now false logFails).1 = .success u kid ∧
      (ApiAuth.authenticate st r now true logFails).1 =
        .failed "Authentication failed" := by
  intro st r now u kid logFails hsucc
  cases hh : r.apiKeyHeader with
  | none => simp [ApiAuth.authenticate, hh] at hsucc
  | some header =>
    cases hf : st.keys.find?
        (fun x => x.key == (ApiAuth.parseHeader header).1 && x.isActive) with
    | none => simp [ApiAuth.authenticate, hh, hf] at hsucc
    | some apiKey =>
      by_cases hexp : ApiAuth.is_expired apiKey now = true
      · simp [ApiAuth.authenticate, hh, hf, hexp] at hsucc
      · by_cases hhm : (match (ApiAuth.parseHeader header).2 with
            | some sig => ApiAuth.validate_hmac r apiKey sig
            | none => true) = true
        · by_cases hrl : (ApiAuth.check_rate_limit apiKey st.cache now).1 = true
          · simp [ApiAuth.authenticate, hh, hf, hexp, hhm, hrl] at hsucc
            obtain ⟨hu, hk⟩ := hsucc
            constructor
            · simp [ApiAuth.authenticate, hh, hf, hexp, hhm, hrl, hu, hk]
            · simp [ApiAuth.authenticate, hh, hf, hexp, hhm, hrl]
          · simp [ApiAuth.authenticate, hh, hf, hexp, hhm, hrl] at hsucc
        · simp [ApiAuth.authenticate, hh, hf, hexp, hhm] at hsucc

/-- Witness for C9 amended at the concrete state: a usage-log failure leaves the
success in place, an update failure turns it into the generic failure. -/
theorem usage_logging_is_best_effort_witness :
    (ApiAuth.authenticate c9St c9Req 5 false true).1 = .success 7 1 ∧
    (ApiAuth.authenticate c9St c9Req 5 true true).1 =
      .failed "Authentication failed" :=
  usage_logging_is_best_effort c9St c9Req 5 7 1 true (by decide)

namespace ApiAuth

/-- Iterate `authenticate` over one request repeated at the given times, with
both store effects succeeding, collecting the outcomes in order. -/
def runRequests (st : AuthState) (r : ApiRequest) : List Nat → List AuthOutcome × AuthState
  | [] => ([], st)
  | t :: ts =>
    let step := authenticate st r t false false
    let rest := runRequests step.2 r ts
    (step.1 :: rest.1, rest.2)

end ApiAuth

/-- `find?` commutes with mapping a function that preserves the predicate. -/
theorem find?_map_pres {α : Type} (p : α → Bool) (g : α → α)
    (hpg : ∀ a, p (g a) = p a) (l : List α) :
    (l.map g).find? p = (l.find? p).map g := by
  induction l with
  | nil => rfl
  | cons x xs ih =>
    by_cases hx : p x = true
    · rw [List.map_cons, List.find?_cons_of_pos _ ((hpg x).trans hx),
        List.find?_cons_of_pos _ hx, Option.map_some']
    · rw [List.map_cons, List.find?_cons_of_neg _ (fun hgx => hx ((hpg x).symm.trans hgx)),
        List.find?_cons_of_neg _ hx, ih]

/-- Reading back the counter just written for the same key and hour while the
entry is alive. -/
theorem cacheGet_cacheSet_same (cache : ApiAuth.RateCache) (kid H i t t' : Nat)
    (hlt : t' < t + 3600) :
    ApiAuth.cacheGet (ApiAuth.cacheSet cache kid H i t 3600) kid H t' = i := by
  unfold ApiAuth.cacheSet ApiAuth.cacheGet
  rw [List.find?_cons_of_pos _ (by simp)]
  simp [hlt]

/-- An absent counter reads as zero. -/
theorem cacheGet_of_absent (cache : ApiAuth.RateCache) (kid H t : Nat)
    (h : cache.find? (fun e => e.keyId == kid && e.hour == H) = none) :
    ApiAuth.cacheGet cache kid H t = 0 := by
  unfold ApiAuth.cacheGet
  rw [h]

/-- Writing one counter never creates an entry for a different (key, hour) pair. -/
theorem find?_cacheSet_other (cache : ApiAuth.RateCache) (kid H i t kid0 H0 : Nat)
    (hne : ¬(kid0 = kid ∧ H0 = H))
    (hnone : cache.find? (fun e => e.keyId == kid0 && e.hour == H0) = none) :
    (ApiAuth.cacheSet cache kid H i t 3600).find?
      (fun e => e.keyId == kid0 && e.hour == H0) = none := by
  unfold ApiAuth.cacheSet
  apply List.find?_eq_none.mpr
  intro e he hp
  rcases List.mem_cons.mp he with rfl | hmem
  · simp at hp
    exact hne ⟨hp.1.symm, hp.2.symm⟩
  · exact List.find?_eq_none.mp hnone e (List.mem_filter.mp hmem).1 hp

/-- Two times in the same absolute hour lie within one TTL of each other. -/
theorem same_hour_lt {t t' D : Nat} (h1 : t / 3600 = D) (h2 : t' / 3600 = D) :
    t' < t + 3600 := by omega

/-- One `authenticate` call on a bare-key request for an active, never-expiring
key whose hourly counter reads below the limit: success, last-used moved to the
call time, counter incremented with one-hour expiry, and a usage row appended. -/
theorem auth_step_success (st : ApiAuth.AuthState) (r : ApiAuth.ApiRequest)
    (header : Bytes) (k : ApiAuth.APIKey) (l : Option Nat) (t c : Nat)
    (hh : r.apiKeyHeader = some header)
    (hp : ApiAuth.parseHeader header = (k.key, none))
    (hf : st.keys.find? (fun x => x.key == k.key && x.isActive) =
      some { k with lastUsed := l })
    (hexp : k.expiresAt = none)
    (hc : ApiAuth.cacheGet st.cache k.id (ApiAuth.hourOfDay t) t = c)
    (hlt : c < k.rateLimit) :
    ApiAuth.authenticate st r t false false =
      (.success k.userId k.id,
       { keys := st.keys.map (fun x =>
           if x.id == k.id then { x with lastUsed := some t } else x),
         cache := ApiAuth.cacheSet st.cache k.id (ApiAuth.hourOfDay t) (c + 1) t 3600,
         usage := st.usage ++ [⟨k.id, r.method⟩] }) := by
  simp only [ApiAuth.authenticate, hh, hp, hf, ApiAuth.is_expired, hexp,
    ApiAuth.check_rate_limit]
  simp [hc, Nat.not_le.mpr hlt]

/-- One `authenticate` call when the hourly counter has reached the limit: the
generic AuthenticationFailed with the state untouched. -/
theorem auth_step_limited (st : ApiAuth.AuthState) (r : ApiAuth.ApiRequest)
    (header : Bytes) (k : ApiAuth.APIKey) (l : Option Nat) (t c : Nat)
    (hh : r.apiKeyHeader = some header)
    (hp : ApiAuth.parseHeader header = (k.key, none))
    (hf : st.keys.find? (fun x => x.key == k.key && x.isActive) =
      some { k with lastUsed := l })
    (hexp : k.expiresAt = none)
    (hc : ApiAuth.cacheGet st.cache k.id (ApiAuth.hourOfDay t) t = c)
    (hge : k.rateLimit ≤ c) :
    ApiAuth.authenticate st r t false false = (.failed "Authentication failed", st) := by
  simp only [ApiAuth.authenticate, hh, hp, hf, ApiAuth.is_expired, hexp,
    ApiAuth.check_rate_limit]
  simp [hc, hge]

/-- Outcome counting for a run of bare-key requests inside one absolute hour:
with the hourly counter reading `i`, the next `rateLimit - i` calls succeed and
the one after fails with the generic AuthenticationFailed; the key row stays
findable with only its last-used timestamp moved, and no counter for any other
(key, hour) pair is ever created. -/
theorem run_requests_count (k : ApiAuth.APIKey) (r : ApiAuth.ApiRequest)
    (header : Bytes) (D : Nat)
    (hh : r.apiKeyHeader = some header)
    (hp : ApiAuth.parseHeader header = (k.key, none))
    (hexp : k.expiresAt = none) :
    ∀ (ts : List Nat) (st : ApiAuth.AuthState) (i : Nat),
      (∀ t ∈ ts, t / 3600 = D) →
      (∃ l, st.keys.find? (fun x => x.key == k.key && x.isActive) =
        some { k with lastUsed := l }) →
      (∀ t, t / 3600 = D → ApiAuth.cacheGet st.cache k.id (D % 24) t = i) →
      i ≤ k.rateLimit →
      ts.length = (k.rateLimit - i) + 1 →
      (ApiAuth.runRequests st r ts).1 =
        List.replicate (k.rateLimit - i) (.success k.userId k.id) ++
          [.failed "Authentication failed"] ∧
      (∃ l, (ApiAuth.runRequests st r ts).2.keys.find?
          (fun x => x.key == k.key && x.isActive) = some { k with lastUsed := l }) ∧
      (∀ kid0 H0, ¬(kid0 = k.id ∧ H0 = D % 24) →
        st.cache.find? (fun e => e.keyId == kid0 && e.hour == H0) = none →
        (ApiAuth.runRequests st r ts).2.cache.find?
          (fun e => e.keyId == kid0 && e.hour == H0) = none) := by
  intro ts
  induction ts with
  | nil => intro st i _ _ _ _ hlen; simp at hlen
  | cons t ts ih =>
    intro st i hts hkey hcache hile hlen
    obtain ⟨l, hfk⟩ := hkey
    have htD : t / 3600 = D := hts t (List.mem_cons_self t ts)
    have hhod : ApiAuth.hourOfDay t = D % 24 := by
      unfold ApiAuth.hourOfDay; rw [htD]
    by_cases hi : i < k.rateLimit
    · have hstep := auth_step_success st r header k l t i hh hp hfk hexp
        (by rw [hhod]; exact hcache t htD) hi
      have hrun1 : ApiAuth.runRequests st r (t :: ts) =
          ((ApiAuth.authenticate st r t false false).1 ::
            (ApiAuth.runRequests (ApiAuth.authenticate st r t false false).2 r ts).1,
           (ApiAuth.runRequests (ApiAuth.authenticate st r t false false).2 r ts).2) := rfl
      rw [hstep] at hrun1
      have hpg : ∀ x : ApiAuth.APIKey,
          (((if x.id == k.id then { x with lastUsed := some t } else x).key == k.key) &&
            (if x.id == k.id then { x with lastUsed := some t } else x).isActive) =
          ((x.key == k.key) && x.isActive) := by
        intro x
        by_cases hx : (x.id == k.id) = true <;> simp [hx]
      have hkey' : (st.keys.map (fun x =>
          if x.id == k.id then { x with lastUsed := some t } else x)).find?
          (fun x => (x.key == k.key) && x.isActive) =
          some { k with lastUsed := some t } := by
        rw [find?_map_pres _ _ hpg, hfk, Option.map_some']
        simp
      have hcache' : ∀ t'', t'' / 3600 = D →
          ApiAuth.cacheGet (ApiAuth.cacheSet st.cache k.id (ApiAuth.hourOfDay t)
            (i + 1) t 3600) k.id (D % 24) t'' = i + 1 := by
        intro t'' ht''
        rw [hhod]
        exact cacheGet_cacheSet_same st.cache k.id (D % 24) (i + 1) t t''
          (same_hour_lt htD ht'')
      have hlen' : ts.length = (k.rateLimit - (i + 1)) + 1 := by
        have hx : ts.length + 1 = (k.rateLimit - i) + 1 := by simpa using hlen
        omega
      obtain ⟨ho, hk2, hc2⟩ := ih
        { keys := st.keys.map (fun x =>
            if x.id == k.id then { x with lastUsed := some t } else x),
          cache := ApiAuth.cacheSet st.cache k.id (ApiAuth.hourOfDay t) (i + 1) t 3600,
          usage := st.usage ++ [⟨k.id, r.method⟩] } (i + 1)
        (fun t'' ht'' => hts t'' (List.mem_cons_of_mem _ ht''))
        ⟨some t, hkey'⟩ hcache' (by omega) hlen'
      have hsub : k.rateLimit - i = (k.rateLimit - (i + 1)) + 1 := by omega
      refine ⟨?_, ?_, ?_⟩
      · simp only [hrun1]
        rw [ho, hsub, List.replicate_succ, List.cons_append]
      · simp only [hrun1]
        exact hk2
      · intro kid0 H0 hne hn0
        simp only [hrun1]
        refine hc2 kid0 H0 hne ?_
        rw [hhod]
        exact find?_cacheSet_other st.cache k.id (D % 24) (i + 1) t kid0 H0 hne hn0
    · have hts0 : ts = [] := by
        have hx : ts.length + 1 = (k.rateLimit - i) + 1 := by simpa using hlen
        have hz : ts.length = 0 := by omega
        exact List.length_eq_zero.mp hz
      subst hts0
      have hstep := auth_step_limited st r header k l t i hh hp hfk hexp
        (by rw [hhod]; exact hcache t htD) (by omega)
      have hrun1 : ApiAuth.runRequests st r [t] =
          ((ApiAuth.authenticate st r t false false).1 ::
            (ApiAuth.runRequests (ApiAuth.authenticate st r t false false).2 r []).1,
           (ApiAuth.runRequests (ApiAuth.authenticate st r t false false).2 r []).2) := rfl
      rw [hstep] at hrun1
      have hieq : k.rateLimit - i = 0 := by omega
      refine ⟨?_, ⟨l, ?_⟩, ?_⟩
      · rw [hrun1]
        simp [ApiAuth.runRequests, hieq]
      · rw [hrun1]
        simp only [ApiAuth.runRequests]
        exact hfk
      · intro kid0 H0 _ hn0
        rw [hrun1]
        simp only [ApiAuth.runRequests]
        exact hn0

/-- C2 amended: for a key with rate limit N, an initially absent hourly counter
and N+1 bare-key requests inside one absolute hour, exactly the first N
requests authenticate and the (N+1)-th fails - with the generic DRF
AuthenticationFailed (HTTP 401), not a 429 RateLimitExceeded, because the raise
happens inside the try block whose blanket handler re-raises the generic
failure; a request in a new hour window reads a fresh counter and succeeds. -/
theorem rate_limit_window (k : ApiAuth.APIKey) (st : ApiAuth.AuthState)
    (r : ApiAuth.ApiRequest) (header : Bytes) (D : Nat) (ts : List Nat) (t' : Nat) :
    r.apiKeyHeader = some header →
    ApiAuth.parseHeader header = (k.key, none) →
    k.expiresAt = none →
    st.keys.find? (fun x => (x.key == k.key) && x.isActive) = some k →
    st.cache.find? (fun e => (e.keyId == k.id) && e.hour == D % 24) = none →
    (∀ t ∈ ts, t / 3600 = D) →
    ts.length = k.rateLimit + 1 →
    (ApiAuth.runRequests st r ts).1 =
      List.replicate k.rateLimit (.success k.userId k.id) ++
        [.failed "Authentication failed"] ∧
    (1 ≤ k.rateLimit → t' / 3600 % 24 ≠ D % 24 →
      st.cache.find? (fun e => (e.keyId == k.id) && e.hour == t' / 3600 % 24) = none →
      (ApiAuth.authenticate (ApiAuth.runRequests st r ts).2 r t' false false).1 =
        .success k.userId k.id) := by
  intro hh hp hexp hfk hc0 hts hlen
  have hcache0 : ∀ t, t / 3600 = D → ApiAuth.cacheGet st.cache k.id (D % 24) t = 0 :=
    fun t _ => cacheGet_of_absent st.cache k.id (D % 24) t hc0
  obtain ⟨ho, hk2, hc2⟩ := run_requests_count k r header D hh hp hexp ts st 0 hts
    ⟨k.lastUsed, hfk⟩ hcache0 (Nat.zero_le _) (by simpa using hlen)
  refine ⟨by simpa using ho, fun h1 hH hn0 => ?_⟩
  obtain ⟨l, hfk'⟩ := hk2
  have hn1 : (ApiAuth.runRequests st r ts).2.cache.find?
      (fun e => (e.keyId == k.id) && e.hour == t' / 3600 % 24) = none :=
    hc2 k.id (t' / 3600 % 24) (fun hcon => hH hcon.2) hn0
  have hstep := auth_step_success (ApiAuth.runRequests st r ts).2 r header k l t' 0
    hh hp hfk' hexp
    (cacheGet_of_absent _ k.id (ApiAuth.hourOfDay t') t' hn1) h1
  rw [hstep]

/-- Concrete key for the C2 counterexample: rate limit one. -/
def c2Key : ApiAuth.APIKey := ⟨2, [113], 9, true, 1, none, none⟩

/-- Concrete store state for the C2 counterexample. -/
def c2St : ApiAuth.AuthState := ⟨[c2Key], [], []⟩

/-- Concrete bare-key request for the C2 counterexample. -/
def c2Req : ApiAuth.ApiRequest := ⟨[71, 69, 84], [47], [], [], some [113]⟩

/-- Counterexample to C2 as stated: with rate limit one, the second same-hour
request is rejected, but the rejection is the DRF AuthenticationFailed - HTTP
status 401 with the generic message - not a 429 RateLimitExceeded. -/
theorem rate_limited_response_is_401_not_429 :
    (ApiAuth.runRequests c2St c2Req [0, 10]).1 =
      [.success 9 2, .failed "Authentication failed"] ∧
    ApiAuth.authenticationFailedStatus = 401 ∧ (401 : Nat) ≠ 429 :=
  ⟨by decide, rfl, by decide⟩

/-- Witness for C2 amended at the concrete key: the exact counting run in one
hour and the fresh success in the next hour window. -/
theorem rate_limit_window_witness :
    (ApiAuth.runRequests c2St c2Req [0, 10]).1 =
      [.success 9 2, .failed "Authentication failed"] ∧
    (ApiAuth.authenticate (ApiAuth.runRequests c2St c2Req [0, 10]).2 c2Req 3700
        false false).1 = .success 9 2 := by
  obtain ⟨h1, h2⟩ := rate_limit_window c2Key c2St c2Req [113] 0 [0, 10] 3700
    rfl (by decide) rfl (by decide) (by decide) (by decide) (by decide)
  exact ⟨by simpa using h1, h2 (by decide) (by decide) (by decide)⟩
